import Mathlib

/-!
Verification of the snap-receipt receipt normalization and print pipeline.

Shallow embedding conventions:
- JavaScript numbers are modelled as exact rationals (the arithmetic in the
  source stays far from the regions where binary float rounding could flip a
  reported cent, and the spec itself speaks in exact decimal terms).
- `Math.round x` is modelled as `Int.floor (x + 1/2)`, which matches the JS
  semantics on every input, ties rounding toward positive infinity.
- `Number.prototype.toFixed 2` is modelled per ECMA-262: a negative number is
  formatted as a minus sign followed by the formatting of its negation, and
  ties pick the larger scaled integer.
- Strings are Lean `String`s; scanning work is done on `List Char` to keep
  every definition kernel-computable.  JS `.length` counts UTF-16 units and
  Lean counts code points; the receipts involved are ASCII, where both agree.
-/

namespace SnapReceipt

/-- JS `Math.round`: round half toward positive infinity. -/
def jsRound (x : ℚ) : ℤ := ⌊x + 1/2⌋

/-- Result record of `calculateTotals` (src/utils/printer.ts). -/
structure Totals where
  subtotal : ℚ
  gst : ℚ
  total : ℚ
  deriving Repr, DecidableEq

/-- `calculateTotals` from src/utils/printer.ts: subtotal and GST are
back-calculated from a tax-inclusive total and rounded to 2 decimal places
independently. -/
def calculateTotals (total : ℚ) : Totals :=
  let subtotal := total * (100/110)
  let gst := total * (10/110)
  { subtotal := (jsRound (subtotal * 100) : ℚ) / 100
    gst := (jsRound (gst * 100) : ℚ) / 100
    total := total }

/-- Two-digit zero padding, as in JS `padStart 2 "0"` for values below 100. -/
def pad2 (n : ℕ) : String :=
  if n < 10 then "0" ++ toString n else toString n

/-- Formatting of a nonnegative rational with exactly two decimals
(the scaled value is rounded with the ECMA tie rule, larger integer wins). -/
def toFixed2Nonneg (x : ℚ) : String :=
  toString ((jsRound (x * 100)).toNat / 100) ++ "." ++ pad2 ((jsRound (x * 100)).toNat % 100)

/-- JS `Number.prototype.toFixed 2`: negative inputs emit a minus sign and
format the negated value. -/
def toFixed2 (x : ℚ) : String :=
  if x < 0 then "-" ++ toFixed2Nonneg (-x) else toFixed2Nonneg x

/-! ### String scanning helpers (JS regex and string semantics on ASCII) -/

/-- JS whitespace class used by `trim` and by the regex class backslash-s
(restricted to the ASCII members, the only ones receipts contain). -/
def jsIsSpace (c : Char) : Bool :=
  c = ' ' || c = '\t' || c = '\n' || c = '\r' || c = '\x0b' || c = '\x0c'

/-- JS `String.prototype.trim` on a character list. -/
def jsTrimChars (cs : List Char) : List Char :=
  ((cs.dropWhile jsIsSpace).reverse.dropWhile jsIsSpace).reverse

/-- JS `String.prototype.trim`. -/
def jsTrim (s : String) : String := String.mk (jsTrimChars s.data)

/-- Splitting on the newline character, as JS `split` with a newline. -/
def splitLinesAux (acc : List Char) : List Char → List (List Char)
  | [] => [acc.reverse]
  | c :: rest =>
    if c = '\n' then acc.reverse :: splitLinesAux [] rest
    else splitLinesAux (c :: acc) rest

/-- All lines of a text blob, in order (blank lines included). -/
def splitLines (s : String) : List String :=
  (splitLinesAux [] s.data).map String.mk

/-- The summary-line regex of the classifier: a case-insensitive test that the
trimmed line starts with Total, Subtotal, GST or Tax, each immediately
followed by a colon.  JS i-flag canonicalization on an ASCII pattern agrees
with ASCII uppercasing. -/
def isSummaryLabelColon (cs : List Char) : Bool :=
  let u := cs.map Char.toUpper
  ("TOTAL:".data).isPrefixOf u || ("SUBTOTAL:".data).isPrefixOf u
    || ("GST:".data).isPrefixOf u || ("TAX:".data).isPrefixOf u

/-- The currency-amount test regex: a dollar sign immediately followed by at
least one digit occurs somewhere in the line. -/
def hasCurrencyAmount : List Char → Bool
  | [] => false
  | c :: rest =>
    (c = '$' && (match rest with | d :: _ => d.isDigit | [] => false))
      || hasCurrencyAmount rest

/-- The anchored quantity-token regex: one or more digits, an x (either case),
then at least one whitespace character; returns the digit group. -/
def quantityToken (cs : List Char) : Option String :=
  let ds := cs.takeWhile Char.isDigit
  if ds.isEmpty then none
  else
    match cs.drop ds.length with
    | x :: s :: _ =>
      if (x = 'x' || x = 'X') && jsIsSpace s then some (String.mk ds) else none
    | _ => none

/-- Characters the price regex accepts in its main run: digits and commas. -/
def isPriceRunChar (c : Char) : Bool := c.isDigit || c = ','

/-- The greedy tail of the price regex once a dollar sign with a following
run character has been found: the run, then an optional dot with digits. -/
def priceMatchFrom (rest : List Char) : List Char :=
  let run := rest.takeWhile isPriceRunChar
  match rest.drop run.length with
  | '.' :: tl => run ++ '.' :: tl.takeWhile Char.isDigit
  | _ => run

/-- Leftmost match of the price regex (dollar sign, one or more digits or
commas, optional dot and digits), or none. -/
def firstPriceMatch : List Char → Option (List Char)
  | [] => none
  | c :: rest =>
    if c = '$' && (match rest with | d :: _ => isPriceRunChar d | [] => false)
    then some ('$' :: priceMatchFrom rest)
    else firstPriceMatch rest

/-- JS `String.prototype.replace` with a plain-string pattern and an empty
replacement: remove the first occurrence of the pattern. -/
def removeFirstOcc (pat : List Char) : List Char → List Char
  | [] => []
  | c :: cs =>
    if pat.isPrefixOf (c :: cs) then (c :: cs).drop pat.length
    else c :: removeFirstOcc pat cs

/-- Removal of the anchored quantity-token regex match from the front of a
string (no-op when the pattern does not match there). -/
def stripLeadingQuantity (cs : List Char) : List Char :=
  let ds := cs.takeWhile Char.isDigit
  if ds.isEmpty then cs
  else
    match cs.drop ds.length with
    | x :: tl =>
      if x = 'x' || x = 'X' then
        let sp := tl.takeWhile jsIsSpace
        if sp.isEmpty then cs else tl.drop sp.length
      else cs
    | [] => cs

/-! ### Line classifier (formatReceiptText in the receipt screen) -/

/-- The classified-line record the receipt screen builds per non-blank line
(the printer module declares the same shape as ReceiptLine). -/
structure ReceiptLine where
  text : String
  textWithoutPrice : String
  price : Option String
  quantity : Option String
  isIndented : Bool
  isTotalLine : Bool
  hasPrice : Bool
  key : String
  deriving Repr, DecidableEq

/-- Field computation of the classifier for one non-blank line: `raw` is the
original line, `trimmed` its trimmed form. -/
def mkReceiptLine (idx : ℕ) (raw trimmed : List Char) : ReceiptLine :=
  { text := String.mk trimmed
    textWithoutPrice :=
      String.mk
        (match quantityToken trimmed with
         | some _ =>
           jsTrimChars (stripLeadingQuantity
             (match firstPriceMatch trimmed with
              | some p => jsTrimChars (removeFirstOcc p trimmed)
              | none => trimmed))
         | none =>
           match firstPriceMatch trimmed with
           | some p => jsTrimChars (removeFirstOcc p trimmed)
           | none => trimmed)
    price := (firstPriceMatch trimmed).map String.mk
    quantity := quantityToken trimmed
    isIndented :=
      decide (raw ≠ trimmed)
        && (("  ".data).isPrefixOf raw || ("\t".data).isPrefixOf raw)
    isTotalLine := isSummaryLabelColon trimmed
    hasPrice := hasCurrencyAmount trimmed
    key := "line-" ++ toString idx }

/-- One step of `formatReceiptText`: blank lines map to none, others to the
classified record. -/
def classifyLine (idx : ℕ) (line : String) : Option ReceiptLine :=
  if (jsTrimChars line.data).isEmpty then none
  else some (mkReceiptLine idx line.data (jsTrimChars line.data))

/-- `formatReceiptText` from the receipt screen: split into lines, classify
each, drop the blanks (the key keeps the pre-filter index, as in the source).
-/
def formatReceiptText (text : String) : List ReceiptLine :=
  (splitLines text).enum.filterMap (fun p => classifyLine p.1 p.2)

/-- Modelled from the spec (for comparison only): the spec words the
summary-line test as a bare case-insensitive prefix match against the labels
Total, Subtotal, GST, Tax, without the colon the code requires. -/
def specSummaryLabelTest (s : String) : Bool :=
  let u := (jsTrimChars s.data).map Char.toUpper
  ("TOTAL".data).isPrefixOf u || ("SUBTOTAL".data).isPrefixOf u
    || ("GST".data).isPrefixOf u || ("TAX".data).isPrefixOf u

/-! ### Structured receipt data (ReceiptData from the OCR module) and the
total-mismatch check of the receipt screen -/

/-- `ReceiptItem` from src/utils/ocr.ts; an absent modifiers field is the
empty list, and the item price is a plain number. -/
structure ReceiptItem where
  name : String
  quantity : ℕ
  price : ℚ
  modifiers : List String
  deriving Repr, DecidableEq

/-- Optional customer block carried on parsed receipts (empty string stands
for an absent, falsy field). -/
structure Customer where
  name : String
  phone : String
  deriving Repr, DecidableEq

/-- `ReceiptData` from src/utils/ocr.ts (total is tax inclusive). -/
structure ReceiptData where
  items : List ReceiptItem
  total : ℚ
  customer : Option Customer
  deriving Repr, DecidableEq

/-- `itemsTotal` of the receipt screen: sum of the item line prices (every
modelled price is a number, so the typeof-guard of the source is vacuous). -/
def itemsTotal (receiptData : ReceiptData) : ℚ :=
  receiptData.items.foldl (fun sum item => sum + item.price) 0

/-- The fixed mismatch tolerance of the receipt screen. -/
def totalMismatchThreshold : ℚ := 5/100

/-- `mismatchDifference`: item sum minus receipt total, zero without data. -/
def mismatchDifference (receiptData? : Option ReceiptData) : ℚ :=
  match receiptData? with
  | some rd => itemsTotal rd - rd.total
  | none => 0

/-- `hasTotalMismatch`: strict comparison of the absolute difference against
the tolerance; false when no structured data is present. -/
def hasTotalMismatch (receiptData? : Option ReceiptData) : Bool :=
  match receiptData? with
  | some rd => decide (totalMismatchThreshold < |itemsTotal rd - rd.total|)
  | none => false

/-- `mismatchDifferenceDisplay`: a plus prefix for nonnegative differences,
then the two-decimal rendering (negative values carry their own sign). -/
def mismatchDifferenceDisplay (receiptData? : Option ReceiptData) : String :=
  (if 0 ≤ mismatchDifference receiptData? then "+" else "")
    ++ toFixed2 (mismatchDifference receiptData?)

/-- Spec-side formatter for comparison: an explicit sign followed by the
magnitude with two decimal places. -/
def signedTwoDecimals (d : ℚ) : String :=
  (if 0 ≤ d then "+" else "-") ++ toFixed2Nonneg |d|

/-- The FRIES and COKE scenario receipt of the spec. -/
def friesCokeReceipt : ReceiptData :=
  { items := [{ name := "FRIES", quantity := 1, price := 5, modifiers := [] },
              { name := "COKE", quantity := 1, price := 3, modifiers := [] }]
    total := 10
    customer := none }

/-! ### Duplicate-Total filtering (filteredReceiptLines) -/

/-- The filter predicate used for duplicate-Total handling: the classified
summary flag together with the case-insensitive Total-colon prefix test
(excluding Subtotal and GST lines, whose text does not start that way). -/
def isTotalMatch (l : ReceiptLine) : Bool :=
  l.isTotalLine && ("TOTAL:".data).isPrefixOf (l.text.data.map Char.toUpper)

/-- Index of the last Total line, counting from `i`: models mapping each line
to its index, filtering the Totals and popping the last entry. -/
def lastTotalIdx : ℕ → List ReceiptLine → Option ℕ
  | _, [] => none
  | i, l :: ls =>
    match lastTotalIdx (i + 1) ls with
    | some j => some j
    | none => if isTotalMatch l then some i else none

/-- The index-aware filter of `filteredReceiptLines`: a Total line survives
only at the recorded index, every other line survives. -/
def keepIdx (k : Option ℕ) : ℕ → List ReceiptLine → List ReceiptLine
  | _, [] => []
  | i, l :: ls =>
    if !isTotalMatch l || (some i == k) then l :: keepIdx k (i + 1) ls
    else keepIdx k (i + 1) ls

/-- `filteredReceiptLines` from the receipt screen: when more than one Total
line exists, keep only the one at the highest index. -/
def filteredReceiptLines (receiptLines : List ReceiptLine) : List ReceiptLine :=
  let totalLines := receiptLines.filter (fun l => isTotalMatch l)
  if 1 < totalLines.length then
    keepIdx (lastTotalIdx 0 receiptLines) 0 receiptLines
  else receiptLines

/-! ### Date formatting (formatDateTime reads the wall clock in the source;
the embedding makes the clock reading an explicit argument) -/

/-- The calendar fields the source reads off the freshly constructed JS Date
(month0 is the zero-based month of getMonth). -/
structure JsDate where
  weekday : Fin 7
  day : ℕ
  month0 : ℕ
  year : ℕ
  hour : ℕ
  minute : ℕ
  deriving Repr, DecidableEq

/-- Short en-US weekday names as produced by toLocaleDateString. -/
def weekdayShortName (w : Fin 7) : String :=
  ["Sun", "Mon", "Tue", "Wed", "Thu", "Fri", "Sat"].getD w.val "Sun"

/-- en-US 2-digit 12-hour clock rendering of toLocaleTimeString. -/
def toLocaleTime12 (hour minute : ℕ) : String :=
  pad2 (if hour % 12 = 0 then 12 else hour % 12) ++ ":" ++ pad2 minute
    ++ " " ++ (if hour < 12 then "AM" else "PM")

/-- `formatDateTime` from src/utils/printer.ts, with the wall-clock reading
passed in explicitly. -/
def formatDateTime (d : JsDate) : String :=
  weekdayShortName d.weekday ++ ", " ++ pad2 d.day ++ "/" ++ pad2 (d.month0 + 1)
    ++ "/" ++ toString d.year ++ " " ++ toLocaleTime12 d.hour d.minute

/-! ### Template resolution (getTemplateSettings) -/

/-- The closed template identifier union from src/utils/settings.ts. -/
inductive PrintTemplateId where
  | classic
  | compact
  | kitchen
  deriving Repr, DecidableEq

/-- The literal record returned per template by getTemplateSettings. -/
structure TemplateSettings where
  lineWidth : ℕ
  feedLinesBeforeItems : ℕ
  feedLinesAfterItems : ℕ
  feedLinesBeforeTotals : ℕ
  feedLinesAfterTotals : ℕ
  feedLinesBeforeFooter : ℕ
  feedLinesAfterFooter : ℕ
  dividerChar : Char
  deriving Repr, DecidableEq

/-- `getTemplateSettings` from src/utils/printer.ts (the default switch arm
coincides with classic, and the identifier type is closed). -/
def getTemplateSettings : PrintTemplateId → TemplateSettings
  | .compact =>
    { lineWidth := 40, feedLinesBeforeItems := 0, feedLinesAfterItems := 0
      feedLinesBeforeTotals := 1, feedLinesAfterTotals := 1
      feedLinesBeforeFooter := 1, feedLinesAfterFooter := 2, dividerChar := '-' }
  | .kitchen =>
    { lineWidth := 44, feedLinesBeforeItems := 1, feedLinesAfterItems := 1
      feedLinesBeforeTotals := 2, feedLinesAfterTotals := 1
      feedLinesBeforeFooter := 2, feedLinesAfterFooter := 3, dividerChar := '=' }
  | .classic =>
    { lineWidth := 42, feedLinesBeforeItems := 0, feedLinesAfterItems := 0
      feedLinesBeforeTotals := 1, feedLinesAfterTotals := 0
      feedLinesBeforeFooter := 1, feedLinesAfterFooter := 3, dividerChar := '=' }

/-! ### Column-text renderer (printReceiptAsText) -/

/-- A run of spaces, as the JS space repeat. -/
def spacesStr (n : ℕ) : String := String.mk (List.replicate n ' ')

/-- A repeated character, as the JS string repeat. -/
def repeatChar (c : Char) (n : ℕ) : String := String.mk (List.replicate n c)

/-- `formatColumns` inside printReceiptAsText: without a right part the left
part stands alone; otherwise at least one space is inserted so the right part
would end at the line width (the ternary on a positive padding in the source
is dead, since the padding is already at least one). -/
def formatColumns (lineWidth : ℕ) (left right : String) : String :=
  if right = "" then left ++ "\n"
  else left ++ spacesStr (max 1 (lineWidth - left.length - right.length))
    ++ right ++ "\n"

/-- The printer-buffer commands printReceiptAsText issues; the buffer stands
for the sequence of addText, addFeedLine and addTextAlign calls. -/
inductive PrinterCmd where
  | text : String → PrinterCmd
  | feedLine : ℕ → PrinterCmd
  | alignCenter
  | alignLeft
  deriving Repr, DecidableEq

/-- An item line of the structured branch: optional quantity prefix and name
left, dollar price right, padded to the line width with at least one space. -/
def jsonItemLine (lineWidth : ℕ) (item : ReceiptItem) : String :=
  let quantityText := if 1 < item.quantity then toString item.quantity ++ "x " else ""
  let priceText := "$" ++ toFixed2 item.price
  let leftPart := quantityText ++ item.name
  leftPart ++ spacesStr (max 1 (lineWidth - leftPart.length - priceText.length))
    ++ priceText ++ "\n"

/-- The structured-branch Subtotal line; the source subtracts 8 for the label
although the label Subtotal with its colon is 9 characters long.  Natural
subtraction truncates where the JS space repeat would throw on a negative
count; the evaluated inputs stay in the nonnegative region. -/
def subtotalLine (lineWidth : ℕ) (sub : ℚ) : String :=
  "Subtotal:" ++ spacesStr (lineWidth - 8 - (toFixed2 sub).length - 1)
    ++ "$" ++ toFixed2 sub ++ "\n"

/-- The structured-branch GST line (label GST with colon, 4 characters). -/
def gstLine (lineWidth : ℕ) (g : ℚ) : String :=
  "GST:" ++ spacesStr (lineWidth - 4 - (toFixed2 g).length - 1)
    ++ "$" ++ toFixed2 g ++ "\n"

/-- The structured-branch Total line (label Total with colon, 6 characters).
-/
def totalLine (lineWidth : ℕ) (t : ℚ) : String :=
  "Total:" ++ spacesStr (lineWidth - 6 - (toFixed2 t).length - 1)
    ++ "$" ++ toFixed2 t ++ "\n"

/-- A product line of the parsed-text branch: indented lines are re-indented
verbatim, priced lines are column-aligned, plain lines pass through. -/
def parsedProductLine (lineWidth : ℕ) (line : ReceiptLine) : String :=
  if line.isIndented then "  " ++ line.text ++ "\n"
  else if line.hasPrice then
    let qs := line.quantity.getD ""
    let quantityText := if qs = "" then "" else qs ++ "x "
    let priceText := line.price.getD ""
    let leftPart := quantityText ++ line.textWithoutPrice
    leftPart ++ spacesStr (max 1 (lineWidth - leftPart.length - priceText.length))
      ++ priceText ++ "\n"
  else line.text ++ "\n"

/-- A summary line of the parsed-text branch: label against amount with the
column algorithm, unpriced summary lines pass through. -/
def parsedTotalLine (lineWidth : ℕ) (line : ReceiptLine) : String :=
  if line.hasPrice then
    let priceText := line.price.getD ""
    line.textWithoutPrice
      ++ spacesStr (max 1 (lineWidth - line.textWithoutPrice.length - priceText.length))
      ++ priceText ++ "\n"
  else line.text ++ "\n"

/-- Case-insensitive uppercased prefix test used by the summary comparator. -/
def upperStartsWith (s : String) (pat : String) : Bool :=
  (pat.data).isPrefixOf (s.data.map Char.toUpper)

/-- The summary ordering of the source comparator: Subtotal lines first, GST
lines second, Total lines last, everything else between GST and Total; the JS
comparator is not a strict order, and on the receipt inputs the stable sort
realizes exactly this bucket ordering, each bucket keeping document order. -/
def sortTotalLines (ls : List ReceiptLine) : List ReceiptLine :=
  ls.filter (fun l => upperStartsWith l.text "SUBTOTAL")
    ++ ls.filter (fun l => !upperStartsWith l.text "SUBTOTAL"
        && upperStartsWith l.text "GST")
    ++ ls.filter (fun l => !upperStartsWith l.text "SUBTOTAL"
        && !upperStartsWith l.text "GST" && !upperStartsWith l.text "TOTAL")
    ++ ls.filter (fun l => !upperStartsWith l.text "SUBTOTAL"
        && !upperStartsWith l.text "GST" && upperStartsWith l.text "TOTAL")

/-- `printReceiptAsText` from src/utils/printer.ts as the buffer of printer
commands it issues (the alignment calls that are attempted and whose failures
are swallowed appear as alignment commands). -/
def printReceiptAsText (receiptData? : Option ReceiptData)
    (filteredLines? : Option (List ReceiptLine)) (orderNumber : Option String)
    (shopName : String) (template : PrintTemplateId) (isPaid : Bool)
    (now : JsDate) : List PrinterCmd :=
  let settings := getTemplateSettings template
  let lineWidth := settings.lineWidth
  let divider := repeatChar settings.dividerChar lineWidth
  let dateTimeStr := formatDateTime now
  let customerName :=
    match receiptData? with
    | some rd => match rd.customer with | some c => c.name | none => ""
    | none => ""
  let customerPhone :=
    match receiptData? with
    | some rd => match rd.customer with | some c => c.phone | none => ""
    | none => ""
  let customerNameText := if customerName = "" then "" else "Customer: " ++ customerName
  let customerPhoneText := if customerPhone = "" then "" else "Phone: " ++ customerPhone
  let orderLineText :=
    match orderNumber with
    | some o => if o = "" then "" else "Order #: " ++ o
    | none => ""
  let header :=
    [PrinterCmd.alignCenter, PrinterCmd.text (divider ++ "\n"),
     PrinterCmd.feedLine settings.feedLinesBeforeItems,
     PrinterCmd.text
       ((if shopName = "" then "Pappa\x27s Ocean Catch" else shopName) ++ "\n"),
     PrinterCmd.feedLine 1]
    ++ (if orderLineText ≠ "" ∨ customerNameText ≠ "" then
          [PrinterCmd.text (formatColumns lineWidth orderLineText customerNameText)]
        else [])
    ++ [PrinterCmd.text (formatColumns lineWidth dateTimeStr customerPhoneText),
        PrinterCmd.text (formatColumns lineWidth ""
          (if isPaid then "PAID" else "Unpaid")),
        PrinterCmd.feedLine settings.feedLinesAfterItems,
        PrinterCmd.text (divider ++ "\n"), PrinterCmd.feedLine 1,
        PrinterCmd.alignLeft]
  let body :=
    match receiptData? with
    | some rd =>
      (rd.items.map (fun item =>
          PrinterCmd.text (jsonItemLine lineWidth item)
            :: item.modifiers.map (fun m => PrinterCmd.text ("  " ++ m ++ "\n")))).flatten
      ++ [PrinterCmd.feedLine settings.feedLinesBeforeTotals,
          PrinterCmd.text (repeatChar settings.dividerChar (min lineWidth 24) ++ "\n"),
          PrinterCmd.text (subtotalLine lineWidth (calculateTotals rd.total).subtotal),
          PrinterCmd.text (gstLine lineWidth (calculateTotals rd.total).gst),
          PrinterCmd.text (totalLine lineWidth (calculateTotals rd.total).total)]
    | none =>
      match filteredLines? with
      | some lines =>
        if 0 < lines.length then
          (lines.filter (fun l => !l.isTotalLine)).map
            (fun l => PrinterCmd.text (parsedProductLine lineWidth l))
          ++ (let sorted := sortTotalLines (lines.filter (fun l => l.isTotalLine))
              if 0 < sorted.length then
                [PrinterCmd.feedLine settings.feedLinesBeforeTotals,
                 PrinterCmd.text
                   (repeatChar settings.dividerChar (min lineWidth 24) ++ "\n")]
                ++ sorted.map (fun l => PrinterCmd.text (parsedTotalLine lineWidth l))
              else [])
        else []
      | none => []
  header ++ body
    ++ [PrinterCmd.feedLine settings.feedLinesBeforeFooter,
        PrinterCmd.text (divider ++ "\n"), PrinterCmd.alignCenter,
        PrinterCmd.text "Thank you for your purchase!\n",
        PrinterCmd.feedLine settings.feedLinesAfterFooter]

/-! ### HTML renderer (generateReceiptHTMLFromJSON in the receipt screen) -/

/-- One character of the HTML escaping; the source chains five global string
replacements whose replacement texts never contain a later pattern, so the
chain coincides with this single-pass character map. -/
def escapeHTMLChar (c : Char) : String :=
  if c = '&' then "&amp;"
  else if c = '<' then "&lt;"
  else if c = '>' then "&gt;"
  else if c = '"' then "&quot;"
  else if c = '\x27' then "&#039;"
  else String.mk [c]

/-- `escapeHTML` from the receipt screen. -/
def escapeHTML (s : String) : String :=
  String.join (s.data.map escapeHTMLChar)

/-- The customer block of the HTML render (empty without customer data). -/
def customerInfoHTML (customer : Option Customer) : String :=
  match customer with
  | none => ""
  | some c =>
    if c.name = "" ∧ c.phone = "" then ""
    else
      "<div class=\"customer-info\">\n          <div class=\"customer-label\">Customer</div>\n          "
      ++ (if c.name = "" then ""
          else "<div class=\"customer-name\">" ++ escapeHTML c.name ++ "</div>")
      ++ "\n          "
      ++ (if c.phone = "" then ""
          else "<div class=\"customer-phone\">" ++ escapeHTML c.phone ++ "</div>")
      ++ "\n        </div>"

/-- One item row of the HTML render, with its modifier rows. -/
def productItemHTML (item : ReceiptItem) : String :=
  (if 1 < item.quantity then
      "<span style=\"color: #0a7ea4; font-weight: bold;\">" ++ toString item.quantity
        ++ "x</span> "
    else "")
  |> fun quantityHTML =>
    "<div style=\"display: flex; justify-content: space-between; margin: 3px 0; font-size: 13px;\">\n        <span style=\"font-size: 13px; font-weight: 600;\">"
    ++ quantityHTML ++ escapeHTML item.name
    ++ "</span>\n        <span style=\"font-weight: 500;\">$" ++ toFixed2 item.price
    ++ "</span>\n      </div>"
    ++ String.join (item.modifiers.map (fun m =>
        "<div style=\"padding-left: 15px; font-size: 9px; color: #666; font-style: italic; margin: 2px 0;\">"
        ++ escapeHTML m ++ "</div>"))

/-- The accumulated item rows of the HTML render. -/
def productsHTML (items : List ReceiptItem) : String :=
  String.join (items.map productItemHTML)

/-- The subtotal, GST and total rows of the HTML render. -/
def totalsHTML (totals : Totals) : String :=
  "\n      <div style=\"display: flex; justify-content: space-between; margin: 3px 0; font-size: 11px; margin-top: 10px; padding-top: 6px; border-top: 1px solid #E5E5E5;\">\n        <span>Subtotal:</span>\n        <span>$"
  ++ toFixed2 totals.subtotal
  ++ "</span>\n      </div>\n      <div style=\"display: flex; justify-content: space-between; margin: 3px 0; font-size: 11px;\">\n        <span>GST:</span>\n        <span>$"
  ++ toFixed2 totals.gst
  ++ "</span>\n      </div>\n      <div style=\"display: flex; justify-content: space-between; margin: 3px 0; font-size: 13px; font-weight: bold;\">\n        <span>Total:</span>\n        <span>$"
  ++ toFixed2 totals.total
  ++ "</span>\n      </div>\n    "

/-- The full HTML document of `generateReceiptHTMLFromJSON`, with the
wall-clock reading and the ambient shop name and print margin made explicit
arguments. -/
def generateReceiptHTMLFromJSON (receiptData : ReceiptData)
    (orderNum : Option String) (paid : Bool) (shopName : String)
    (printMargin : ℕ) (now : JsDate) : String :=
  "\n      <!DOCTYPE html>\n      <html>\n        <head>\n          <meta charset=\"utf-8\">\n          <style>\n            @page \x7b\n              size: A5 portrait;\n              margin: "
  ++ toString printMargin
  ++ "mm;\n            \x7d\n            * \x7b\n              margin: 0;\n              padding: 0;\n              box-sizing: border-box;\n            \x7d\n            body \x7b\n              font-family: \x27Courier New\x27, monospace;\n              margin: 0;\n              padding: "
  ++ toString printMargin
  ++ "mm;\n              font-size: 11px;\n              line-height: 1.5;\n              width: 100%;\n            \x7d\n            .receipt-header \x7b\n              text-align: center;\n              margin-bottom: 12px;\n            \x7d\n            .receipt-title \x7b\n              font-size: 16px;\n              font-weight: bold;\n              letter-spacing: 2px;\n              margin-bottom: 8px;\n            \x7d\n            .shop-info \x7b\n              text-align: center;\n              margin-bottom: 12px;\n            \x7d\n            .shop-name \x7b\n              font-size: 14px;\n              font-weight: bold;\n              color: #0a7ea4;\n              margin-bottom: 6px;\n            \x7d\n            .order-number \x7b\n              font-size: 12px;\n              font-weight: 600;\n              margin-bottom: 6px;\n            \x7d\n            .date-time \x7b\n              font-size: 10px;\n              color: #666;\n              margin: 2px 0;\n            \x7d\n            .order-customer-row \x7b\n              display: flex;\n              justify-content: space-between;\n              align-items: flex-start;\n              gap: 16px;\n              margin-top: 8px;\n              text-align: left;\n            \x7d\n            .order-info \x7b\n              flex: 1;\n            \x7d\n            .customer-info \x7b\n              min-width: 140px;\n              text-align: right;\n            \x7d\n            .customer-label \x7b\n              font-size: 10px;\n              letter-spacing: 0.5px;\n              text-transform: uppercase;\n              color: #666;\n              margin-bottom: 2px;\n            \x7d\n            .customer-name \x7b\n              font-size: 12px;\n              font-weight: 600;\n            \x7d\n            .customer-phone \x7b\n              font-size: 11px;\n              color: #666;\n            \x7d\n            .divider \x7b\n              border-top: 1px solid #E5E5E5;\n              margin: 10px 0;\n            \x7d\n            .products-section \x7b\n              margin: 12px 0;\n            \x7d\n            .totals-section \x7b\n              margin-top: 12px;\n              padding-top: 8px;\n              border-top: 1px solid #E5E5E5;\n            \x7d\n            .footer \x7b\n              text-align: center;\n              margin-top: 15px;\n              font-size: 9px;\n              color: #666;\n              font-style: italic;\n            \x7d\n          </style>\n        </head>\n        <body>\n          <div class=\"receipt-header\">\n            <div class=\"divider\"></div>\n          </div>\n          \n          <div class=\"shop-info\">\n            <div class=\"shop-name\">"
  ++ escapeHTML (if shopName = "" then "Pappas Ocean Catch" else shopName)
  ++ "</div>\n            <div class=\"order-customer-row\">\n              <div class=\"order-info\">\n                "
  ++ (match orderNum with
      | some o =>
        if o = "" then ""
        else "<div class=\"order-number\">Order #: " ++ escapeHTML o ++ "</div>"
      | none => "")
  ++ "\n                <div class=\"date-time\">"
  ++ escapeHTML (formatDateTime now)
  ++ "</div>\n              </div>\n              "
  ++ customerInfoHTML receiptData.customer
  ++ "\n            </div>\n            <div style=\"margin: 8px 0; text-align: center;\">\n              <span style=\"display: inline-block; padding: 4px 12px; border-radius: 4px; font-size: 12px; font-weight: bold; "
  ++ (if paid then "background-color: #D1FAE5; color: #065F46;"
      else "background-color: #FEE2E2; color: #991B1B;")
  ++ "\">\n                "
  ++ (if paid then "PAID" else "Unpaid")
  ++ "\n              </span>\n            </div>\n            <div class=\"divider\"></div>\n          </div>\n          \n          <div class=\"products-section\">\n            "
  ++ productsHTML receiptData.items
  ++ "\n          </div>\n          \n          <div class=\"totals-section\">\n            "
  ++ totalsHTML (calculateTotals receiptData.total)
  ++ "\n          </div>\n          \n          <div class=\"footer\">\n            Thank you for your purchase!\n          </div>\n        </body>\n      </html>\n    "

/-! ### Print orchestration (handleEpsonPrint, handlePrintToAllPrinters and
the auto-print gate of the receipt screen) -/

/-- Observable steps of a print session against the printer transport. -/
inductive PrintEv where
  | connectT
  | connectPlain
  | capture
  | textPrint
  | cut
  | send
  | feed
  | disconnect
  deriving Repr, DecidableEq

/-- Outcome of one transport call: success, or a thrown error message. -/
inductive StepResult where
  | ok : StepResult
  | err : String → StepResult
  deriving Repr, DecidableEq

/-- The transport oracle for one device: the outcome each call would have.
The cut outcome is carried for completeness although the source swallows cut
failures and continues. -/
structure DeviceBehavior where
  connectWithTimeout : StepResult
  connectNoTimeout : StepResult
  addViewShot : StepResult
  addCut : StepResult
  sendData : StepResult
  disconnect : StepResult
  deriving Repr, DecidableEq

/-- JS `String.prototype.includes` on character lists. -/
def containsSubstr (pat : List Char) : List Char → Bool
  | [] => pat.isEmpty
  | c :: cs => pat.isPrefixOf (c :: cs) || containsSubstr pat cs

/-- JS `String.prototype.includes`. -/
def strIncludes (s pat : String) : Bool := containsSubstr pat.data s.data

/-- The connect-retry classification of the source: the error message
mentions parameter or invalid. -/
def connectRetryClass (e : String) : Bool :=
  strIncludes e "parameter" || strIncludes e "invalid"

/-- The capture-fallback classification of the source: the message mentions
invalid parameter, invalid, or parameter. -/
def captureFallbackClass (e : String) : Bool :=
  strIncludes e "invalid parameter" || strIncludes e "invalid"
    || strIncludes e "parameter"

/-- The connect phase shared by both print paths: a timeout connect, retried
without the timeout only for a parameter or invalid class failure. -/
def connectPhase (b : DeviceBehavior) : List PrintEv × StepResult :=
  match b.connectWithTimeout with
  | .ok => ([PrintEv.connectT], .ok)
  | .err e =>
    if connectRetryClass e then
      match b.connectNoTimeout with
      | .ok => ([PrintEv.connectT, PrintEv.connectPlain], .ok)
      | .err e2 => ([PrintEv.connectT, PrintEv.connectPlain], .err e2)
    else ([PrintEv.connectT], .err e)

/-- Cut, send and the between-copy feed at the tail of one copy: the cut is
attempted with its failure swallowed, the send outcome decides the copy. -/
def finishCopy (b : DeviceBehavior) (feedAfter : Bool) (pre : List PrintEv) :
    List PrintEv × StepResult :=
  match b.sendData with
  | .ok =>
    (pre ++ [PrintEv.cut, PrintEv.send]
      ++ (if feedAfter then [PrintEv.feed] else []), .ok)
  | .err e => (pre ++ [PrintEv.cut, PrintEv.send], .err e)

/-- One copy of the single-target path: the capture is attempted; on a
parameter or invalid class failure the copy falls back to the column-text
render, and any other capture failure aborts the device. -/
def epsonCopy (b : DeviceBehavior) (feedAfter : Bool) : List PrintEv × StepResult :=
  match b.addViewShot with
  | .ok => finishCopy b feedAfter [PrintEv.capture]
  | .err e =>
    if captureFallbackClass e then
      finishCopy b feedAfter [PrintEv.capture, PrintEv.textPrint]
    else ([PrintEv.capture], .err e)

/-- The copy loop of the single-target path (feed between copies, none after
the last). -/
def epsonCopiesLoop (b : DeviceBehavior) : ℕ → List PrintEv × StepResult
  | 0 => ([], .ok)
  | Nat.succ k =>
    let c := epsonCopy b (decide (0 < k))
    match c.2 with
    | .ok => (c.1 ++ (epsonCopiesLoop b k).1, (epsonCopiesLoop b k).2)
    | .err e => (c.1, .err e)

/-- `getPrintCopies` from src/utils/settings.ts: an unreadable or below-one
stored value gives one copy, anything else is capped at ten. -/
def getPrintCopies (stored : Option ℤ) : ℕ :=
  match stored with
  | none => 1
  | some p => if p < 1 then 1 else (min 10 p).toNat

/-- `handleEpsonPrint` from the receipt screen, from target resolution on:
without a target nothing is attempted; the copy count is read from the
setting only for an auto-triggered print, a manual print uses one copy. -/
def handleEpsonPrint (isAutoPrint : Bool) (stored : Option ℤ)
    (target? : Option String) (b : DeviceBehavior) : List PrintEv × StepResult :=
  match target? with
  | none => ([], .err "No Printers Found")
  | some _ =>
    let printCopies := if isAutoPrint then getPrintCopies stored else 1
    let c := connectPhase b
    match c.2 with
    | .err e => (c.1, .err e)
    | .ok =>
      let r := epsonCopiesLoop b printCopies
      match r.2 with
      | .err e => (c.1 ++ r.1, .err e)
      | .ok => (c.1 ++ r.1 ++ [PrintEv.disconnect], b.disconnect)

/-- The auto-print effect of the receipt screen: the outer guard and the body
of autoPrintIfEnabled, as the print events it causes.  An existing receipt,
an already-attempted auto print, a total mismatch, a disabled setting, an
unsaved or still-printing state, or missing data cause no printing work. -/
def autoPrintIfEnabled (isExistingReceipt attempted : Bool)
    (receiptData? : Option ReceiptData) (filteredLines? : Option (List ReceiptLine))
    (autoPrintOn isSaved isEpsonPrinting : Bool) (stored : Option ℤ)
    (target? : Option String) (b : DeviceBehavior) : List PrintEv :=
  let dataReady := receiptData?.isSome
    || (match filteredLines? with
        | some ls => decide (0 < ls.length)
        | none => false)
  if isExistingReceipt then []
  else if !hasTotalMismatch receiptData? && isSaved && dataReady then
    if attempted then []
    else if hasTotalMismatch receiptData? then []
    else if autoPrintOn && isSaved && !isEpsonPrinting && dataReady then
      (handleEpsonPrint true stored target? b).1
    else []
  else []

/-- A discovered printer entry of the multi-target path (empty strings stand
for absent, falsy fields). -/
structure PrinterInfo where
  deviceName : String
  name : String
  target : String
  behavior : DeviceBehavior
  deriving Repr, DecidableEq

/-- The name resolution of the loop body: deviceName, then name, then the
literal Printer. -/
def resolveDeviceName (p : PrinterInfo) : String :=
  if p.deviceName ≠ "" then p.deviceName
  else if p.name ≠ "" then p.name else "Printer"

/-- The name resolution of the catch handler: deviceName, then name, then the
raw target. -/
def resolveCatchName (p : PrinterInfo) : String :=
  if p.deviceName ≠ "" then p.deviceName
  else if p.name ≠ "" then p.name else p.target

/-- The error text extraction of the catch handler: the thrown message, or
the literal Unknown error for an empty one. -/
def jsOrUnknown (e : String) : String := if e = "" then "Unknown error" else e

/-- One entry of the aggregated multi-target result. -/
structure PrintOutcome where
  printer : String
  success : Bool
  error : Option String
  deriving Repr, DecidableEq

/-- One copy of the multi-target path: the capture is attempted with no
fallback of any kind, so any capture failure aborts this device. -/
def allPrintersCopy (b : DeviceBehavior) (feedAfter : Bool) :
    List PrintEv × StepResult :=
  match b.addViewShot with
  | .ok => finishCopy b feedAfter [PrintEv.capture]
  | .err e => ([PrintEv.capture], .err e)

/-- The copy loop of the multi-target path. -/
def allPrintersCopiesLoop (b : DeviceBehavior) : ℕ → List PrintEv × StepResult
  | 0 => ([], .ok)
  | Nat.succ k =>
    let c := allPrintersCopy b (decide (0 < k))
    match c.2 with
    | .ok => (c.1 ++ (allPrintersCopiesLoop b k).1, (allPrintersCopiesLoop b k).2)
    | .err e => (c.1, .err e)

/-- The loop body of `handlePrintToAllPrinters` for one printer: target
validation, connect with retry, the copy loop, disconnect; any failure is
caught and recorded with the catch name resolution and the original message.
-/
def printOnePrinter (stored : Option ℤ) (p : PrinterInfo) :
    PrintOutcome × List PrintEv :=
  if (jsTrimChars p.target.data).isEmpty then
    ({ printer := resolveCatchName p, success := false
       error := some (jsOrUnknown "Invalid printer target") }, [])
  else
    let c := connectPhase p.behavior
    match c.2 with
    | .err e =>
      ({ printer := resolveCatchName p, success := false
         error := some (jsOrUnknown e) }, c.1)
    | .ok =>
      let r := allPrintersCopiesLoop p.behavior (getPrintCopies stored)
      match r.2 with
      | .err e =>
        ({ printer := resolveCatchName p, success := false
           error := some (jsOrUnknown e) }, c.1 ++ r.1)
      | .ok =>
        match p.behavior.disconnect with
        | .err e =>
          ({ printer := resolveCatchName p, success := false
             error := some (jsOrUnknown e) }, c.1 ++ r.1 ++ [PrintEv.disconnect])
        | .ok =>
          ({ printer := resolveDeviceName p, success := true, error := none },
            c.1 ++ r.1 ++ [PrintEv.disconnect])

/-- `handlePrintToAllPrinters` from the receipt screen: the sequential loop
over every discovered printer, collecting one outcome per printer. -/
def handlePrintToAllPrinters (stored : Option ℤ) :
    List PrinterInfo → List PrintOutcome × List PrintEv
  | [] => ([], [])
  | p :: ps =>
    ((printOnePrinter stored p).1 :: (handlePrintToAllPrinters stored ps).1,
      (printOnePrinter stored p).2 ++ (handlePrintToAllPrinters stored ps).2)

/-- Number of occurrences of one event in a trace. -/
def countEv (e : PrintEv) (evs : List PrintEv) : ℕ :=
  (evs.filter (fun x => x == e)).length

/-- Every transport call of the device succeeds. -/
def allStepsOk (b : DeviceBehavior) : Prop :=
  b.connectWithTimeout = .ok ∧ b.connectNoTimeout = .ok ∧ b.addViewShot = .ok
    ∧ b.addCut = .ok ∧ b.sendData = .ok ∧ b.disconnect = .ok

/-- A fully healthy device. -/
def okBehavior : DeviceBehavior :=
  { connectWithTimeout := .ok, connectNoTimeout := .ok, addViewShot := .ok
    addCut := .ok, sendData := .ok, disconnect := .ok }

/-- Scenario device A: the connect attempt fails outright. -/
def devA : PrinterInfo :=
  { deviceName := "deviceA", name := "", target := "BT:00:11"
    behavior := { okBehavior with connectWithTimeout := .err "ConnectionFailed" } }

/-- Scenario device B: fully healthy. -/
def devB : PrinterInfo :=
  { deviceName := "deviceB", name := "", target := "BT:00:22"
    behavior := okBehavior }

/-- Scenario device C: the view capture throws an invalid parameter error. -/
def devC : PrinterInfo :=
  { deviceName := "deviceC", name := "", target := "BT:00:33"
    behavior := { okBehavior with addViewShot := .err "invalid parameter" } }

/-- Two concrete clock readings that differ in the minute. -/
def dateA : JsDate :=
  { weekday := 1, day := 3, month0 := 5, year := 2025, hour := 14, minute := 5 }

/-- The second clock reading. -/
def dateB : JsDate :=
  { weekday := 1, day := 3, month0 := 5, year := 2025, hour := 14, minute := 6 }

/-- A structured receipt with no items and a tax-inclusive total of 22,
whose subtotal renders as 20.00. -/
def emptyReceipt22 : ReceiptData := { items := [], total := 22, customer := none }

end SnapReceipt

namespace SnapReceipt

/-- Claim C1: for every tax-inclusive total `t`, `calculateTotals t` returns
`subtotal = t * 100/110` and `gst = t * 10/110`, each independently rounded to
2 decimal places, and the returned `subtotal + gst` differs from `t` by at
most one cent. -/
theorem calculateTotals_rounds_and_drifts_at_most_one_cent (t : ℚ) :
    (calculateTotals t).subtotal = (jsRound (t * (100/110) * 100) : ℚ) / 100
    ∧ (calculateTotals t).gst = (jsRound (t * (10/110) * 100) : ℚ) / 100
    ∧ |(calculateTotals t).subtotal + (calculateTotals t).gst - t| ≤ 1/100 := by
  refine ⟨rfl, rfl, ?_⟩
  have h1 : ((⌊t * (100/110) * 100 + 1/2⌋ : ℤ) : ℚ) ≤ t * (100/110) * 100 + 1/2 :=
    Int.floor_le _
  have h2 : t * (100/110) * 100 + 1/2 < ((⌊t * (100/110) * 100 + 1/2⌋ : ℤ) : ℚ) + 1 :=
    Int.lt_floor_add_one _
  have h3 : ((⌊t * (10/110) * 100 + 1/2⌋ : ℤ) : ℚ) ≤ t * (10/110) * 100 + 1/2 :=
    Int.floor_le _
  have h4 : t * (10/110) * 100 + 1/2 < ((⌊t * (10/110) * 100 + 1/2⌋ : ℤ) : ℚ) + 1 :=
    Int.lt_floor_add_one _
  have hcalc : (calculateTotals t).subtotal + (calculateTotals t).gst - t
      = (((⌊t * (100/110) * 100 + 1/2⌋ : ℤ) : ℚ) - t * (100/110) * 100
        + (((⌊t * (10/110) * 100 + 1/2⌋ : ℤ) : ℚ) - t * (10/110) * 100)) / 100 := by
    simp only [calculateTotals, jsRound]
    ring
  rw [hcalc, abs_le]
  constructor <;> linarith

/-! ### Lemmas about the duplicate-Total filter -/

theorem lastTotalIdx_ge (ls : List ReceiptLine) :
    ∀ i j, lastTotalIdx i ls = some j → i ≤ j := by
  induction ls with
  | nil => intro i j h; simp [lastTotalIdx] at h
  | cons l ls ih =>
    intro i j h
    simp only [lastTotalIdx] at h
    cases hrec : lastTotalIdx (i + 1) ls with
    | some j2 =>
      rw [hrec] at h
      have hj : j2 = j := by injection h
      have := ih (i + 1) j2 hrec
      omega
    | none =>
      rw [hrec] at h
      by_cases hm : isTotalMatch l = true
      · simp only [hm, if_true] at h
        have hj : i = j := by injection h
        omega
      · simp [hm] at h

theorem lastTotalIdx_none_of_no_totals (ls : List ReceiptLine) :
    ∀ i, (∀ x ∈ ls, isTotalMatch x = false) → lastTotalIdx i ls = none := by
  induction ls with
  | nil => intro i _; rfl
  | cons l ls ih =>
    intro i hall
    simp only [lastTotalIdx]
    rw [ih (i + 1) (fun x hx => hall x (List.mem_cons_of_mem l hx))]
    simp [hall l (List.mem_cons_self l ls)]

theorem no_totals_of_lastTotalIdx_none (ls : List ReceiptLine) :
    ∀ i, lastTotalIdx i ls = none → ∀ x ∈ ls, isTotalMatch x = false := by
  induction ls with
  | nil => intro i _ x hx; cases hx
  | cons l ls ih =>
    intro i h x hx
    simp only [lastTotalIdx] at h
    cases hrec : lastTotalIdx (i + 1) ls with
    | some j2 => rw [hrec] at h; cases h
    | none =>
      rw [hrec] at h
      by_cases hm : isTotalMatch l = true
      · simp [hm] at h
      · rcases List.mem_cons.mp hx with rfl | hx2
        · exact Bool.eq_false_iff.mpr hm
        · exact ih (i + 1) hrec x hx2

theorem lastTotalIdx_isSome_of_filter_ne_nil (ls : List ReceiptLine) :
    ∀ i, ls.filter (fun l => isTotalMatch l) ≠ [] →
      ∃ j, lastTotalIdx i ls = some j := by
  induction ls with
  | nil => intro i h; simp at h
  | cons l ls ih =>
    intro i h
    simp only [lastTotalIdx]
    cases hrec : lastTotalIdx (i + 1) ls with
    | some j2 => exact ⟨j2, rfl⟩
    | none =>
      by_cases hm : isTotalMatch l = true
      · exact ⟨i, by simp [hm]⟩
      · exfalso
        apply h
        rw [List.filter_cons_of_neg (by simp [hm])]
        exact List.filter_eq_nil_iff.mpr
          (fun x hx => by simp [no_totals_of_lastTotalIdx_none ls (i + 1) hrec x hx])

theorem filter_ne_nil_of_lastTotalIdx_some (ls : List ReceiptLine) {i j : ℕ}
    (h : lastTotalIdx i ls = some j) :
    ls.filter (fun l => isTotalMatch l) ≠ [] := by
  intro h0
  have : lastTotalIdx i ls = none :=
    lastTotalIdx_none_of_no_totals ls i
      (fun x hx => by
        have := List.filter_eq_nil_iff.mp h0 x hx
        simpa using this)
  rw [this] at h
  cases h

theorem keepIdx_of_no_totals (ls : List ReceiptLine) :
    ∀ i k, (∀ x ∈ ls, isTotalMatch x = false) → keepIdx k i ls = ls := by
  induction ls with
  | nil => intro i k _; rfl
  | cons l ls ih =>
    intro i k hall
    simp only [keepIdx]
    rw [if_pos (by simp [hall l (List.mem_cons_self l ls)])]
    rw [ih (i + 1) k (fun x hx => hall x (List.mem_cons_of_mem l hx))]

theorem keepIdx_spec (ls : List ReceiptLine) :
    ∀ i k, lastTotalIdx i ls = some k →
      ((keepIdx (some k) i ls).filter (fun l => isTotalMatch l)
          = (ls.filter (fun l => isTotalMatch l)).getLast?.toList)
      ∧ ((keepIdx (some k) i ls).filter (fun l => !isTotalMatch l)
          = ls.filter (fun l => !isTotalMatch l))
      ∧ (keepIdx (some k) i ls).Sublist ls := by
  induction ls with
  | nil => intro i k h; cases h
  | cons l ls ih =>
    intro i k h
    simp only [lastTotalIdx] at h
    cases hrec : lastTotalIdx (i + 1) ls with
    | some j =>
      rw [hrec] at h
      obtain rfl : j = k := by injection h
      have hik : i + 1 ≤ j := lastTotalIdx_ge ls (i + 1) j hrec
      have hfne : ls.filter (fun l => isTotalMatch l) ≠ [] :=
        filter_ne_nil_of_lastTotalIdx_some ls hrec
      obtain ⟨hA, hB, hC⟩ := ih (i + 1) j hrec
      by_cases hm : isTotalMatch l = true
      · have hbeq : (some i == some j) = false := by
          rw [beq_eq_false_iff_ne]
          simp only [ne_eq, Option.some.injEq]
          omega
        have hkeep : keepIdx (some j) i (l :: ls) = keepIdx (some j) (i + 1) ls := by
          simp [keepIdx, hm, hbeq]
        refine ⟨?_, ?_, ?_⟩
        · rw [hkeep, hA, List.filter_cons_of_pos (by simp [hm])]
          obtain ⟨a, t, hat⟩ := List.exists_cons_of_ne_nil hfne
          rw [hat, List.getLast?_cons_cons]
        · rw [hkeep, hB, List.filter_cons_of_neg (by simp [hm])]
        · exact (hkeep ▸ hC).trans (List.sublist_cons_self l ls)
      · have hm' : isTotalMatch l = false := Bool.eq_false_iff.mpr hm
        have hkeep : keepIdx (some j) i (l :: ls) = l :: keepIdx (some j) (i + 1) ls := by
          simp [keepIdx, hm']
        refine ⟨?_, ?_, ?_⟩
        · rw [hkeep, List.filter_cons_of_neg (by simp [hm']), hA,
            List.filter_cons_of_neg (by simp [hm'])]
        · rw [hkeep, List.filter_cons_of_pos (by simp [hm']), hB,
            List.filter_cons_of_pos (by simp [hm'])]
        · rw [hkeep]
          exact hC.cons₂ l
    | none =>
      rw [hrec] at h
      by_cases hm : isTotalMatch l = true
      · rw [if_pos hm] at h
        obtain rfl : i = k := by injection h
        have hnone : ∀ x ∈ ls, isTotalMatch x = false :=
          no_totals_of_lastTotalIdx_none ls (i + 1) hrec
        have hkeep : keepIdx (some i) i (l :: ls) = l :: ls := by
          simp only [keepIdx]
          rw [if_pos (by simp)]
          rw [keepIdx_of_no_totals ls (i + 1) (some i) hnone]
        have hfnil : ls.filter (fun l => isTotalMatch l) = [] :=
          List.filter_eq_nil_iff.mpr (fun x hx => by simp [hnone x hx])
        refine ⟨?_, ?_, ?_⟩
        · rw [hkeep, List.filter_cons_of_pos (by simp [hm]), hfnil]
          rfl
        · rw [hkeep]
        · rw [hkeep]
      · rw [if_neg hm] at h
        cases h

/-- Claim C2: when the classified lines contain more than one Total line
(case-insensitive Total-colon prefix, summary flag set, excluding
Subtotal/GST), the filtered list retains exactly one such line, namely the
last one, keeps every non-Total line, and preserves the original order. -/
theorem filteredReceiptLines_keeps_only_last_total (lines : List ReceiptLine)
    (h : 1 < (lines.filter (fun l => isTotalMatch l)).length) :
    ((filteredReceiptLines lines).filter (fun l => isTotalMatch l)).length = 1
    ∧ (filteredReceiptLines lines).filter (fun l => isTotalMatch l)
        = (lines.filter (fun l => isTotalMatch l)).getLast?.toList
    ∧ (filteredReceiptLines lines).filter (fun l => !isTotalMatch l)
        = lines.filter (fun l => !isTotalMatch l)
    ∧ (filteredReceiptLines lines).Sublist lines := by
  have hne : lines.filter (fun l => isTotalMatch l) ≠ [] := by
    intro h0
    rw [h0] at h
    simp at h
  obtain ⟨k, hk⟩ := lastTotalIdx_isSome_of_filter_ne_nil lines 0 hne
  have hout : filteredReceiptLines lines = keepIdx (some k) 0 lines := by
    simp only [filteredReceiptLines]
    rw [if_pos h, hk]
  obtain ⟨hA, hB, hC⟩ := keepIdx_spec lines 0 k hk
  refine ⟨?_, by rw [hout]; exact hA, by rw [hout]; exact hB, by rw [hout]; exact hC⟩
  rw [hout, hA]
  obtain ⟨a, t, hat⟩ := List.exists_cons_of_ne_nil hne
  rw [hat]
  cases hg : (a :: t).getLast? with
  | none => simp [List.getLast?_eq_none_iff] at hg
  | some x => rfl

/-- Witness for C2 at a concrete raw text with a duplicated Total line. -/
theorem filteredReceiptLines_keeps_only_last_total_witness :
    ((filteredReceiptLines
        (formatReceiptText "Total: $1.00\nFISH $3.00\nTotal: $2.00")).filter
          (fun l => isTotalMatch l)).length = 1
    ∧ (filteredReceiptLines
        (formatReceiptText "Total: $1.00\nFISH $3.00\nTotal: $2.00")).filter
          (fun l => isTotalMatch l)
        = ((formatReceiptText "Total: $1.00\nFISH $3.00\nTotal: $2.00").filter
            (fun l => isTotalMatch l)).getLast?.toList
    ∧ (filteredReceiptLines
        (formatReceiptText "Total: $1.00\nFISH $3.00\nTotal: $2.00")).filter
          (fun l => !isTotalMatch l)
        = (formatReceiptText "Total: $1.00\nFISH $3.00\nTotal: $2.00").filter
            (fun l => !isTotalMatch l)
    ∧ (filteredReceiptLines
        (formatReceiptText "Total: $1.00\nFISH $3.00\nTotal: $2.00")).Sublist
          (formatReceiptText "Total: $1.00\nFISH $3.00\nTotal: $2.00") :=
  filteredReceiptLines_keeps_only_last_total
    (formatReceiptText "Total: $1.00\nFISH $3.00\nTotal: $2.00") (by decide)

/-- Counterexample for C9: the trimmed line starts with the label Total
(so the claim calls it a summary line) but, lacking the colon the regex
requires, the classifier does not mark it. -/
theorem summary_label_without_colon_not_marked :
    (formatReceiptText "Total 22.00").map (fun l => l.isTotalLine) = [false]
    ∧ specSummaryLabelTest "Total 22.00" = true := by
  decide

/-- Claim C9 (amended): for every non-blank input line, the classifier marks
it a summary line exactly when its trimmed text starts, case-insensitively,
with one of Total, Subtotal, GST or Tax immediately followed by a colon. -/
theorem classifier_summary_flag_iff_colon_label (text : String) (l : ReceiptLine)
    (h : l ∈ formatReceiptText text) :
    l.isTotalLine = true ↔ isSummaryLabelColon l.text.data = true := by
  rw [formatReceiptText] at h
  obtain ⟨p, _, hcl⟩ := List.mem_filterMap.mp h
  simp only [classifyLine] at hcl
  split at hcl
  · cases hcl
  · have hl : l = mkReceiptLine p.1 p.2.data (jsTrimChars p.2.data) := by
      injection hcl with h2
      exact h2.symm
    subst hl
    simp [mkReceiptLine]

/-- Witness for the amended C9 at a concrete classified line. -/
theorem classifier_summary_flag_iff_colon_label_witness :
    (mkReceiptLine 0 ("GST: $2.00".data) (jsTrimChars "GST: $2.00".data)).isTotalLine
        = true
      ↔ isSummaryLabelColon
          (mkReceiptLine 0 ("GST: $2.00".data)
            (jsTrimChars "GST: $2.00".data)).text.data = true :=
  classifier_summary_flag_iff_colon_label "GST: $2.00" _ (by decide)

theorem display_eq_signed (d : ℚ) :
    (if 0 ≤ d then "+" else "") ++ toFixed2 d = signedTwoDecimals d := by
  rcases le_or_lt 0 d with h | h
  · rw [signedTwoDecimals, if_pos h, if_pos h, toFixed2, if_neg (not_lt.mpr h),
      abs_of_nonneg h]
  · rw [signedTwoDecimals, if_neg (not_le.mpr h), if_neg (not_le.mpr h), toFixed2,
      if_pos h, abs_of_neg h]
    apply congrArg String.mk
    simp [String.append]

theorem friesCoke_diff : mismatchDifference (some friesCokeReceipt) = -2 := by
  norm_num [mismatchDifference, itemsTotal, friesCokeReceipt]

theorem friesCoke_mismatch : hasTotalMismatch (some friesCokeReceipt) = true := by
  show decide (totalMismatchThreshold
      < |itemsTotal friesCokeReceipt - friesCokeReceipt.total|) = true
  rw [decide_eq_true_iff,
    show itemsTotal friesCokeReceipt - friesCokeReceipt.total = -2 from friesCoke_diff,
    abs_of_nonpos (by norm_num), totalMismatchThreshold]
  norm_num

theorem toFixed2Nonneg_two : toFixed2Nonneg (2:ℚ) = "2.00" := by
  have h200 : jsRound ((2:ℚ) * 100) = 200 := by
    rw [jsRound, Int.floor_eq_iff]
    constructor <;> norm_num
  rw [toFixed2Nonneg, h200]
  rfl

/-- Claim C3: the mismatch flag is set exactly when the item sum differs from
the total by strictly more than 0.05, the delta string is the signed
difference with an explicit sign and two decimals, and the FRIES/COKE
scenario yields the flag with delta -2.00. -/
theorem mismatch_flag_iff_and_signed_delta :
    (∀ rd : ReceiptData,
      (hasTotalMismatch (some rd) = true ↔ 5/100 < |itemsTotal rd - rd.total|)
      ∧ mismatchDifferenceDisplay (some rd)
          = signedTwoDecimals (itemsTotal rd - rd.total))
    ∧ hasTotalMismatch (some friesCokeReceipt) = true
    ∧ mismatchDifferenceDisplay (some friesCokeReceipt) = "-2.00" := by
  refine ⟨fun rd => ⟨?_, display_eq_signed (itemsTotal rd - rd.total)⟩,
    friesCoke_mismatch, ?_⟩
  · simp [hasTotalMismatch, totalMismatchThreshold]
  · calc mismatchDifferenceDisplay (some friesCokeReceipt)
        = (if (0:ℚ) ≤ -2 then "+" else "") ++ toFixed2 (-2) := by
          rw [mismatchDifferenceDisplay, friesCoke_diff]
      _ = "-" ++ toFixed2Nonneg 2 := by
          rw [if_neg (by norm_num), toFixed2, if_pos (by norm_num)]
          norm_num
      _ = "-2.00" := by rw [toFixed2Nonneg_two]; rfl

/-- Claim C4: whenever the total-mismatch flag is set, the auto-print path
performs no printing work at all, for any auto-print setting and any device:
the emitted trace is empty, so no connection is ever attempted. -/
theorem auto_print_skipped_on_mismatch
    (isExisting attempted : Bool) (receiptData? : Option ReceiptData)
    (filteredLines? : Option (List ReceiptLine)) (autoOn isSaved isEpson : Bool)
    (stored : Option ℤ) (target? : Option String) (b : DeviceBehavior)
    (h : hasTotalMismatch receiptData? = true) :
    autoPrintIfEnabled isExisting attempted receiptData? filteredLines?
      autoOn isSaved isEpson stored target? b = [] := by
  simp [autoPrintIfEnabled, h]

/-- Witness for C4: the FRIES/COKE mismatch receipt with auto-print enabled,
saved data and a healthy reachable device still prints nothing. -/
theorem auto_print_skipped_on_mismatch_witness :
    autoPrintIfEnabled false false (some friesCokeReceipt) none
      true true false (some 2) (some "BT:00:22") okBehavior = [] :=
  auto_print_skipped_on_mismatch false false (some friesCokeReceipt) none
    true true false (some 2) (some "BT:00:22") okBehavior friesCoke_mismatch

theorem countEv_append (e : PrintEv) (l1 l2 : List PrintEv) :
    countEv e (l1 ++ l2) = countEv e l1 + countEv e l2 := by
  simp [countEv, List.filter_append]

theorem epsonLoop_send_count (b : DeviceBehavior)
    (hv : b.addViewShot = .ok) (hs : b.sendData = .ok) :
    ∀ n, countEv PrintEv.send (epsonCopiesLoop b n).1 = n := by
  intro n
  induction n with
  | zero => rfl
  | succ k ih =>
    simp only [epsonCopiesLoop, epsonCopy, hv, finishCopy, hs]
    rw [countEv_append, ih]
    cases hk : decide (0 < k) <;> simp [countEv] <;> omega

theorem epsonLoop_ok (b : DeviceBehavior)
    (hv : b.addViewShot = .ok) (hs : b.sendData = .ok) :
    ∀ n, (epsonCopiesLoop b n).2 = .ok := by
  intro n
  induction n with
  | zero => rfl
  | succ k ih =>
    simp only [epsonCopiesLoop, epsonCopy, hv, finishCopy, hs]
    exact ih

/-- Claim C10: a manual single-target print is independent of the stored
copies setting and, on a healthy device, runs exactly one capture, cut and
send cycle, while an auto-triggered print runs as many send cycles as the
clamped stored setting dictates. -/
theorem manual_print_one_cycle_auto_print_reads_setting :
    (∀ stored stored2 target? b,
      handleEpsonPrint false stored target? b
        = handleEpsonPrint false stored2 target? b)
    ∧ (∀ (stored : Option ℤ) (t : String) (b : DeviceBehavior), allStepsOk b →
        (handleEpsonPrint false stored (some t) b).1
          = [PrintEv.connectT, PrintEv.capture, PrintEv.cut, PrintEv.send,
             PrintEv.disconnect])
    ∧ (∀ (stored : Option ℤ) (t : String) (b : DeviceBehavior), allStepsOk b →
        countEv PrintEv.send (handleEpsonPrint true stored (some t) b).1
          = getPrintCopies stored) := by
  refine ⟨fun _ _ _ _ => rfl, ?_, ?_⟩
  · rintro stored t b ⟨h1, h2, h3, h4, h5, h6⟩
    simp [handleEpsonPrint, connectPhase, h1, epsonCopiesLoop, epsonCopy,
      finishCopy, h3, h5]
  · rintro stored t b ⟨h1, h2, h3, h4, h5, h6⟩
    simp only [handleEpsonPrint, connectPhase, h1, epsonLoop_ok b h3 h5, if_true]
    rw [countEv_append, countEv_append, epsonLoop_send_count b h3 h5]
    simp [countEv]

/-- Witness for C10: with seven stored copies a manual print still runs one
cycle, and with three stored copies an auto print sends three times. -/
theorem manual_print_one_cycle_auto_print_reads_setting_witness :
    (handleEpsonPrint false (some 7) (some "BT:00:22") okBehavior).1
        = [PrintEv.connectT, PrintEv.capture, PrintEv.cut, PrintEv.send,
           PrintEv.disconnect]
    ∧ countEv PrintEv.send (handleEpsonPrint true (some 3) (some "BT:00:22") okBehavior).1
        = getPrintCopies (some 3) :=
  ⟨manual_print_one_cycle_auto_print_reads_setting.2.1 (some 7) "BT:00:22"
      okBehavior ⟨rfl, rfl, rfl, rfl, rfl, rfl⟩,
    manual_print_one_cycle_auto_print_reads_setting.2.2 (some 3) "BT:00:22"
      okBehavior ⟨rfl, rfl, rfl, rfl, rfl, rfl⟩⟩

theorem getPrintCopies_pos (stored : Option ℤ) : 0 < getPrintCopies stored := by
  cases stored with
  | none => decide
  | some p =>
    simp only [getPrintCopies]
    split
    · decide
    · rename_i hp
      have h1 : (1:ℤ) ≤ min 10 p := le_min (by norm_num) (by omega)
      omega

theorem textPrint_mem_epsonLoop (b : DeviceBehavior) (e : String)
    (hv : b.addViewShot = .err e) (hcl : captureFallbackClass e = true) :
    ∀ n, 0 < n →
      PrintEv.textPrint ∈ (epsonCopiesLoop b n).1
      ∧ PrintEv.send ∈ (epsonCopiesLoop b n).1 := by
  intro n hn
  cases n with
  | zero => exact absurd hn (lt_irrefl 0)
  | succ k =>
    simp only [epsonCopiesLoop, epsonCopy, hv, hcl, if_true, finishCopy]
    cases hs : b.sendData <;> cases hk : decide (0 < k) <;>
      simp [List.mem_append]

theorem textPrint_notin_connectPhase (b : DeviceBehavior) :
    PrintEv.textPrint ∉ (connectPhase b).1 := by
  simp only [connectPhase]
  cases hc : b.connectWithTimeout with
  | ok => simp
  | err e =>
    cases hcl : connectRetryClass e with
    | true => cases hcn : b.connectNoTimeout <;> simp [hcl]
    | false => simp [hcl]

theorem textPrint_notin_allPrintersCopy (b : DeviceBehavior) (f : Bool) :
    PrintEv.textPrint ∉ (allPrintersCopy b f).1 := by
  simp only [allPrintersCopy, finishCopy]
  cases hv : b.addViewShot with
  | ok => cases hs : b.sendData <;> cases f <;> simp
  | err e => simp

theorem textPrint_notin_allPrintersLoop (b : DeviceBehavior) :
    ∀ n, PrintEv.textPrint ∉ (allPrintersCopiesLoop b n).1 := by
  intro n
  induction n with
  | zero => simp [allPrintersCopiesLoop]
  | succ k ih =>
    simp only [allPrintersCopiesLoop]
    cases hr : (allPrintersCopy b (decide (0 < k))).2 with
    | ok =>
      intro h
      rcases List.mem_append.mp h with h2 | h2
      · exact textPrint_notin_allPrintersCopy b _ h2
      · exact ih h2
    | err e =>
      exact textPrint_notin_allPrintersCopy b _

theorem textPrint_notin_printOnePrinter (stored : Option ℤ) (p : PrinterInfo) :
    PrintEv.textPrint ∉ (printOnePrinter stored p).2 := by
  simp only [printOnePrinter]
  split
  · simp
  · cases hr : (connectPhase p.behavior).2 with
    | err e => exact textPrint_notin_connectPhase p.behavior
    | ok =>
      cases hr2 : (allPrintersCopiesLoop p.behavior (getPrintCopies stored)).2 with
      | err e =>
        intro h
        rcases List.mem_append.mp h with h2 | h2
        · exact textPrint_notin_connectPhase p.behavior h2
        · exact textPrint_notin_allPrintersLoop p.behavior _ h2
      | ok =>
        cases hd : p.behavior.disconnect <;>
        · intro h
          rcases List.mem_append.mp h with h2 | h2
          · rcases List.mem_append.mp h2 with h3 | h3
            · exact textPrint_notin_connectPhase p.behavior h3
            · exact textPrint_notin_allPrintersLoop p.behavior _ h3
          · simp at h2

theorem textPrint_notin_handleAll (stored : Option ℤ) :
    ∀ ps, PrintEv.textPrint ∉ (handlePrintToAllPrinters stored ps).2 := by
  intro ps
  induction ps with
  | nil => simp [handlePrintToAllPrinters]
  | cons p ps ih =>
    simp only [handlePrintToAllPrinters]
    intro h
    rcases List.mem_append.mp h with h2 | h2
    · exact textPrint_notin_printOnePrinter stored p h2
    · exact ih h2

/-- Counterexample for C6: in the multi-target path a capture failure of the
invalid-parameter class does not fall back to the column-text render: the
device is recorded as failed right after the capture attempt and the trace
holds no column-text print. -/
theorem multi_target_capture_failure_has_no_fallback :
    (handlePrintToAllPrinters (some 1) [devC]).1
        = [{ printer := "deviceC", success := false
             error := some "invalid parameter" }]
    ∧ (handlePrintToAllPrinters (some 1) [devC]).2
        = [PrintEv.connectT, PrintEv.capture]
    ∧ PrintEv.textPrint ∉ (handlePrintToAllPrinters (some 1) [devC]).2 := by
  decide

/-- Claim C6 (amended): in the single-target path (manual or auto), an
invalid-parameter class capture failure falls back to the column-text render
for that device and the cycle goes on to the send; the multi-target path
never performs such a fallback for any device. -/
theorem capture_invalid_param_fallback_single_target_only
    (isAuto : Bool) (stored : Option ℤ) (t : String) (b : DeviceBehavior)
    (e : String) (hc : b.connectWithTimeout = .ok) (hv : b.addViewShot = .err e)
    (hcl : captureFallbackClass e = true) :
    PrintEv.textPrint ∈ (handleEpsonPrint isAuto stored (some t) b).1
    ∧ PrintEv.send ∈ (handleEpsonPrint isAuto stored (some t) b).1
    ∧ ∀ (stored2 : Option ℤ) (ps : List PrinterInfo),
        PrintEv.textPrint ∉ (handlePrintToAllPrinters stored2 ps).2 := by
  have hpos : 0 < (if isAuto then getPrintCopies stored else 1) := by
    cases isAuto
    · simp
    · simpa using getPrintCopies_pos stored
  obtain ⟨hm1, hm2⟩ := textPrint_mem_epsonLoop b e hv hcl _ hpos
  have hmem : ∀ ev,
      ev ∈ (epsonCopiesLoop b (if isAuto then getPrintCopies stored else 1)).1 →
      ev ∈ (handleEpsonPrint isAuto stored (some t) b).1 := by
    intro ev hev
    simp only [handleEpsonPrint, connectPhase, hc]
    cases hr : (epsonCopiesLoop b (if isAuto then getPrintCopies stored else 1)).2 with
    | ok => simp [List.mem_append]; tauto
    | err e2 => simp [List.mem_append]; tauto
  exact ⟨hmem _ hm1, hmem _ hm2, fun stored2 ps => textPrint_notin_handleAll stored2 ps⟩

/-- Witness for the amended C6 at the concrete invalid-parameter device. -/
theorem capture_invalid_param_fallback_single_target_only_witness :
    PrintEv.textPrint ∈ (handleEpsonPrint false none (some "BT:00:33") devC.behavior).1
    ∧ PrintEv.send ∈ (handleEpsonPrint false none (some "BT:00:33") devC.behavior).1
    ∧ PrintEv.textPrint ∉ (handlePrintToAllPrinters (some 1) [devC]).2 :=
  have h := capture_invalid_param_fallback_single_target_only false none "BT:00:33"
    devC.behavior "invalid parameter" rfl rfl (by decide)
  ⟨h.1, h.2.1, h.2.2 (some 1) [devC]⟩

theorem handleAll_results_map (stored : Option ℤ) :
    ∀ ps, (handlePrintToAllPrinters stored ps).1
      = ps.map (fun p => (printOnePrinter stored p).1) := by
  intro ps
  induction ps with
  | nil => rfl
  | cons p ps ih => simp only [handlePrintToAllPrinters, List.map_cons, ih]

theorem length_filter_partition {α : Type} (q : α → Bool) (l : List α) :
    (l.filter q).length + (l.filter (fun x => !q x)).length = l.length := by
  induction l with
  | nil => rfl
  | cons x xs ih => cases hx : q x <;> simp [List.filter_cons, hx] <;> omega

/-- Claim C5: the multi-target loop processes every device independently (the
result list is the pointwise result of each device on its own, so one failure
never aborts the rest), the results partition the devices into succeeded and
failed, a connection failure is recorded under the device name with the
original error text, and the two-device scenario with one dead connection
yields one failure entry and a full print on the healthy device. -/
theorem per_device_failures_isolated_and_recorded :
    (∀ (stored : Option ℤ) (ps : List PrinterInfo),
      (handlePrintToAllPrinters stored ps).1
        = ps.map (fun p => (printOnePrinter stored p).1))
    ∧ (∀ (stored : Option ℤ) (ps : List PrinterInfo),
      ((handlePrintToAllPrinters stored ps).1.filter (fun r => r.success)).length
        + ((handlePrintToAllPrinters stored ps).1.filter (fun r => !r.success)).length
        = ps.length)
    ∧ (∀ (stored : Option ℤ) (p : PrinterInfo) (e : String),
        (jsTrimChars p.target.data).isEmpty = false →
        p.behavior.connectWithTimeout = .err e →
        connectRetryClass e = false →
        (printOnePrinter stored p).1
          = { printer := resolveCatchName p, success := false
              error := some (jsOrUnknown e) })
    ∧ (handlePrintToAllPrinters (some 2) [devA, devB]).1
        = [{ printer := "deviceA", success := false
             error := some "ConnectionFailed" },
           { printer := "deviceB", success := true, error := none }]
    ∧ countEv PrintEv.send (printOnePrinter (some 2) devB).2 = 2 := by
  refine ⟨handleAll_results_map, ?_, ?_, by decide, by decide⟩
  · intro stored ps
    rw [handleAll_results_map stored ps, length_filter_partition, List.length_map]
  · intro stored p e h1 h2 h3
    simp [printOnePrinter, connectPhase, h1, h2, h3]

/-- Witness for C5 at the concrete dead-connection device. -/
theorem per_device_failures_isolated_and_recorded_witness :
    (printOnePrinter (some 2) devA).1
      = { printer := resolveCatchName devA, success := false
          error := some (jsOrUnknown "ConnectionFailed") } :=
  per_device_failures_isolated_and_recorded.2.2.1 (some 2) devA
    "ConnectionFailed" (by decide) rfl (by decide)

theorem jsRound_intCast (n : ℤ) : jsRound ((n : ℚ)) = n := by
  rw [jsRound, Int.floor_eq_iff]
  constructor
  · linarith
  · linarith

theorem calculateTotals_22 :
    (calculateTotals (22:ℚ)).subtotal = 20 ∧ (calculateTotals (22:ℚ)).gst = 2
      ∧ (calculateTotals (22:ℚ)).total = 22 := by
  refine ⟨?_, ?_, rfl⟩
  · show (jsRound ((22:ℚ) * (100/110) * 100) : ℚ) / 100 = 20
    rw [show (22:ℚ) * (100/110) * 100 = ((2000:ℤ):ℚ) by norm_num, jsRound_intCast]
    norm_num
  · show (jsRound ((22:ℚ) * (10/110) * 100) : ℚ) / 100 = 2
    rw [show (22:ℚ) * (10/110) * 100 = ((200:ℤ):ℚ) by norm_num, jsRound_intCast]
    norm_num

theorem toFixed2_of_scaled (x : ℚ) (n : ℤ) (hx : ¬ x < 0) (h : x * 100 = (n:ℚ)) :
    toFixed2 x = toString (n.toNat / 100) ++ "." ++ pad2 (n.toNat % 100) := by
  rw [toFixed2, if_neg hx, toFixed2Nonneg, h, jsRound_intCast]

theorem toFixed2_twenty : toFixed2 (20:ℚ) = "20.00" := by
  rw [toFixed2_of_scaled 20 2000 (by norm_num) (by norm_num)]
  rfl

theorem toFixed2_two : toFixed2 (2:ℚ) = "2.00" := by
  rw [toFixed2_of_scaled 2 200 (by norm_num) (by norm_num)]
  rfl

theorem toFixed2_twentytwo : toFixed2 (22:ℚ) = "22.00" := by
  rw [toFixed2_of_scaled 22 2200 (by norm_num) (by norm_num)]
  rfl

/-- Claim C7 evidence (code bug): with the classic width 42 and a structured
receipt whose subtotal renders as 20.00, the emitted Subtotal line pads with
28 spaces although the column algorithm of the claim demands 42-9-6 = 27, so
the Subtotal line body is 43 characters wide while the GST and Total lines of
the very same receipt are 42 wide; the overlong line appears verbatim in the
rendered buffer. -/
theorem subtotal_line_padding_off_by_one :
    subtotalLine 42 (calculateTotals (22:ℚ)).subtotal
        = "Subtotal:" ++ spacesStr 28 ++ "$" ++ "20.00" ++ "\n"
    ∧ (42 : ℕ) - "Subtotal:".length - "$20.00".length = 27
    ∧ ("Subtotal:" ++ spacesStr 28 ++ "$" ++ "20.00").length = 43
    ∧ gstLine 42 (calculateTotals (22:ℚ)).gst
        = "GST:" ++ spacesStr 33 ++ "$" ++ "2.00" ++ "\n"
    ∧ ("GST:" ++ spacesStr 33 ++ "$" ++ "2.00").length = 42
    ∧ totalLine 42 (calculateTotals (22:ℚ)).total
        = "Total:" ++ spacesStr 30 ++ "$" ++ "22.00" ++ "\n"
    ∧ ("Total:" ++ spacesStr 30 ++ "$" ++ "22.00").length = 42
    ∧ PrinterCmd.text (subtotalLine 42 (calculateTotals (22:ℚ)).subtotal)
        ∈ printReceiptAsText (some emptyReceipt22) none none "Shop"
            PrintTemplateId.classic false dateA := by
  obtain ⟨hs, hg, ht⟩ := calculateTotals_22
  refine ⟨?_, by decide, by decide, ?_, by decide, ?_, by decide, ?_⟩
  · rw [subtotalLine, hs, toFixed2_twenty]
    rfl
  · rw [gstLine, hg, toFixed2_two]
    rfl
  · rw [totalLine, ht, toFixed2_twentytwo]
    rfl
  · simp only [printReceiptAsText, emptyReceipt22]
    simp [List.mem_append, getTemplateSettings]

/-- Counterexample for C8: with every stated input fixed, two renders at
wall-clock instants one minute apart produce different column-text buffers,
so the renders are not functions of the stated inputs alone. -/
theorem render_differs_across_clock_readings :
    printReceiptAsText none none none "Shop" PrintTemplateId.classic false dateA
      ≠ printReceiptAsText none none none "Shop" PrintTemplateId.classic false dateB := by
  decide

/-- Claim C8 (amended): both renders are deterministic in the receipt data,
order number, paid flag, shop name, template, print margin and the formatted
date-time of the render instant: whenever the formatted date-times agree,
rendering twice is byte-identical for both the HTML and the column-text
output (only the implicit wall-clock input of the original claim fails, as
the counterexample shows). -/
theorem renders_deterministic_given_clock
    (receiptData? : Option ReceiptData) (lines? : Option (List ReceiptLine))
    (orderNumber : Option String) (shop : String) (tpl : PrintTemplateId)
    (paid : Bool) (rd : ReceiptData) (orderNum : Option String) (paid2 : Bool)
    (shop2 : String) (margin : ℕ) (d1 d2 : JsDate)
    (h : formatDateTime d1 = formatDateTime d2) :
    printReceiptAsText receiptData? lines? orderNumber shop tpl paid d1
      = printReceiptAsText receiptData? lines? orderNumber shop tpl paid d2
    ∧ generateReceiptHTMLFromJSON rd orderNum paid2 shop2 margin d1
      = generateReceiptHTMLFromJSON rd orderNum paid2 shop2 margin d2 := by
  constructor
  · unfold printReceiptAsText
    rw [h]
  · unfold generateReceiptHTMLFromJSON
    rw [h]

/-- Witness for the amended C8 at one concrete clock reading. -/
theorem renders_deterministic_given_clock_witness :
    printReceiptAsText none none none "Shop" PrintTemplateId.classic false dateA
      = printReceiptAsText none none none "Shop" PrintTemplateId.classic false dateA
    ∧ generateReceiptHTMLFromJSON friesCokeReceipt none false "Shop" 8 dateA
      = generateReceiptHTMLFromJSON friesCokeReceipt none false "Shop" 8 dateA :=
  renders_deterministic_given_clock none none none "Shop" PrintTemplateId.classic
    false friesCokeReceipt none false "Shop" 8 dateA dateA rfl

end SnapReceipt
